import Mathlib

/-!
Verification of the kudzu WSGI middleware (src/kudzu.py) against its
natural-language specification.

Shallow embedding conventions:
* A `RequestContext` object is identified by a `Nat` id; Python's `is`
  identity comparison becomes equality of ids.
* The thread-local context stack `RequestContext._local.stack` (a Python
  list whose *end* is the top) is a `List Nat` whose *head* is the top:
  `stack.append(self)` is cons, `stack[-1]` is `head?`, `stack.pop()` is
  `tail`.  A missing `stack` attribute is observationally identical to an
  empty list (every access lazily initialises it to `[]`), so the lazy
  initialisation is folded away.
* The per-thread family of stacks (`threading.local`) is a total function
  `Nat → List Nat` from thread ids to stacks, all initially `[]`.
* The mutable `_log_vars` dictionary is the record `LogVars`; its key set
  is fixed (`CONTEXT_VARS`), the extra `epoch` key added only by the
  `log_vars` property is an `Option String` field that starts out `none`.
* Python exceptions become explicit error values: methods that can raise
  `RuntimeError` return the message paired with the (unchanged, for the
  raising branches) state; WSGI-application exceptions are an abstract
  type `ε`.
* Wall-clock readings (`time.time()` derived strings) are oracle inputs:
  the `micros`/`msecs`/`epoch`/`time`/`ctime` strings are parameters.
-/

/-! ## Python primitives used by the source -/

/-- Whitespace characters stripped by Python's `int(str)` conversion. -/
def isPyWhitespace (c : Char) : Bool :=
  c = ' ' || c = '\t' || c = '\n' || c = '\r' || c = '\x0b' || c = '\x0c'

/-- Strip leading and trailing Python whitespace from a character list. -/
def stripPy (cs : List Char) : List Char :=
  ((cs.dropWhile isPyWhitespace).reverse.dropWhile isPyWhitespace).reverse

/-- Value of a non-empty all-digit character list, else `none`. -/
def digitsVal : List Char → Option Nat
  | [] => none
  | cs =>
    if cs.all Char.isDigit then
      some (cs.foldl (fun a c => a * 10 + (c.toNat - 48)) 0)
    else
      none

/-- Python's `int(s)`: strip surrounding whitespace, optional sign, decimal
digits; `none` models `ValueError`. -/
def pyInt (s : String) : Option Int :=
  match stripPy s.toList with
  | '+' :: rest => (digitsVal rest).map (fun n => (n : Int))
  | '-' :: rest => (digitsVal rest).map (fun n => -(n : Int))
  | cs => (digitsVal cs).map (fun n => (n : Int))

/-- Python's `s.split(' ', 1)[0]`: the prefix of `s` before the first
space character (the whole string when there is no space). -/
def pySplitFirst (s : String) : String :=
  String.mk (s.toList.takeWhile (fun c => c ≠ ' '))

/-- Python's `s.lower()` restricted to the ASCII range, which is all the
source applies it to (header names). -/
def pyLower (s : String) : String :=
  String.mk (s.toList.map Char.toLower)

/-! ## RequestContext: log variables -/

/-- The `_log_vars` dictionary of a `RequestContext`.  Its keys are the
fixed tuple `CONTEXT_VARS`; the `epoch` key exists only in snapshots
returned by the `log_vars` property, hence `Option`. -/
structure LogVars where
  uri : String
  method : String
  user : String
  addr : String
  host : String
  proto : String
  uagent : String
  referer : String
  status : String
  micros : String
  msecs : String
  time : String
  ctime : String
  rsize : String
  epoch : Option String := none
deriving DecidableEq, Repr

/-- A WSGI `environ` dictionary, restricted to the keys the source reads.
`Option` fields model `environ.get` (absent key allowed); plain fields
model `environ[...]` lookups that WSGI guarantees to be present.
`kudzu_context` models presence of the `'kudzu.context'` key. -/
structure Environ where
  request_uri : Option String := none
  script_name : Option String := none
  path_info : Option String := none
  query_string : Option String := none
  request_method : String
  remote_user : Option String := none
  remote_addr : Option String := none
  http_host : Option String := none
  server_name : String
  server_protocol : String
  http_user_agent : Option String := none
  http_referer : Option String := none
  kudzu_context : Option Nat := none
deriving DecidableEq, Repr

/-- Python truthiness of `environ.get('QUERY_STRING')`: `None` and the
empty string are falsy. -/
def pyTruthyOptStr : Option String → Bool
  | none => false
  | some s => s ≠ ""

/-- Python's `''.join(parts)`: concatenation of a list of strings. -/
def pyJoin : List String → String
  | [] => ""
  | s :: rest => s ++ pyJoin rest

/-- Embedding of `_get_request_uri(environ)`: the server-provided `REQUEST_URI` when
present, otherwise `''.join([SCRIPT_NAME, PATH_INFO] (+ ['?', QUERY_STRING]
when the query string is truthy))`. -/
def _get_request_uri (e : Environ) : String :=
  match e.request_uri with
  | some rv => rv
  | none =>
    let parts := [e.script_name.getD "", e.path_info.getD ""]
    let parts :=
      if pyTruthyOptStr e.query_string then
        parts ++ ["?", e.query_string.getD ""]
      else
        parts
    pyJoin parts

/-- Embedding of `RequestContext._environ_log_vars(environ)`: every `CONTEXT_VARS` key
starts as `"-"` (`dict.fromkeys`), then the request-derived keys are
overwritten.  `timeStr`/`ctimeStr` stand for `str(int(self._start_time))`
and `time.ctime(self._start_time)`. -/
def RequestContext._environ_log_vars (e : Environ) (timeStr ctimeStr : String) : LogVars where
  uri := _get_request_uri e
  method := e.request_method
  user := e.remote_user.getD "-"
  addr := e.remote_addr.getD "-"
  host := e.http_host.getD e.server_name
  proto := e.server_protocol
  uagent := e.http_user_agent.getD "-"
  referer := e.http_referer.getD "-"
  status := "-"
  micros := "-"
  msecs := "-"
  time := timeStr
  ctime := ctimeStr
  rsize := "-"
  epoch := none

/-- One wall-clock reading for the `log_vars` property: the strings
`str(int(duration * 1e6))`, `str(int(duration * 1e3))` and
`str(int(self._start_time))`. -/
structure Snap where
  micros : String
  msecs : String
  epochStr : String
deriving DecidableEq, Repr

/-- The `log_vars` property: a copy of `_log_vars` with fresh `micros`,
`msecs` and `epoch` entries. -/
def RequestContext.log_vars (lv : LogVars) (now : Snap) : LogVars :=
  { lv with micros := now.micros, msecs := now.msecs, epoch := some now.epochStr }

/-- Embedding of `RequestContext.set_status(status)`: `int(status.split(' ', 1)[0])`;
`ValueError` sets `status` to `"???"`, success sets `'%s' % status_code`. -/
def RequestContext.set_status (status : String) (lv : LogVars) : LogVars :=
  match pyInt (pySplitFirst status) with
  | none => { lv with status := "???" }
  | some status_code => { lv with status := toString status_code }

/-- Embedding of `RequestContext.set_response_size(value)`: `int(value)`; `ValueError`
sets `rsize` to `"???"`, success sets `'%s' % size`. -/
def RequestContext.set_response_size (value : String) (lv : LogVars) : LogVars :=
  match pyInt value with
  | none => { lv with rsize := "???" }
  | some size => { lv with rsize := toString size }

/-! ## RequestContext: the thread-local context stack -/

/-- Embedding of `RequestContext.get()`: top of the current thread's stack, `None` when
empty. -/
def RequestContext.get (s : List Nat) : Option Nat :=
  s.head?

/-- Embedding of `RequestContext.push()`: `stack.append(self)`. -/
def RequestContext.push (c : Nat) (s : List Nat) : List Nat :=
  c :: s

/-- Embedding of `RequestContext.pop()`: raises `RuntimeError` (returned as `some msg`,
stack unchanged) when the stack is empty or `self` is not on top;
otherwise removes the top. -/
def RequestContext.pop (c : Nat) (s : List Nat) : Option String × List Nat :=
  match s with
  | [] => (some "RequestContext stack is empty.", [])
  | top :: rest =>
    if top = c then
      (none, rest)
    else
      (some "Wrong RequestContext at top of stack.", top :: rest)

/-! ## Thread locality -/

/-- A stack operation performed by one thread. -/
inductive StackOp where
  | pushOp : Nat → StackOp
  | popOp : Nat → StackOp
deriving DecidableEq, Repr

/-- Apply one operation in thread `t` to the family of per-thread stacks
(`threading.local`): only thread `t`'s own stack is touched; a failing
`pop` leaves the state unchanged. -/
def stepOp (t : Nat) (g : Nat → List Nat) : StackOp → (Nat → List Nat)
  | .pushOp c => fun u => if u = t then RequestContext.push c (g u) else g u
  | .popOp c => fun u => if u = t then (RequestContext.pop c (g u)).2 else g u

/-- Run a sequence of stack operations, all performed by thread `t`. -/
def runOps (t : Nat) (ops : List StackOp) (g : Nat → List Nat) : Nat → List Nat :=
  ops.foldl (stepOp t) g

/-! ## Middleware -/

/-- Severity of an emitted log record. -/
inductive LogLevel where
  | info : LogLevel
  | error : LogLevel
deriving DecidableEq, Repr

/-- One record emitted to the logger; `exc_info` is whether the record
carries exception/stack information (`logger.exception` does,
`logger.info` does not). -/
structure LogRecord where
  level : LogLevel
  msg : String
  exc_info : Bool
deriving DecidableEq, Repr

/-- One invocation of a `start_response` callable: status line, response
header list, and the optional `exc_info` argument (abstracted to an id). -/
structure SRCall where
  status : String
  headers : List (String × String)
  excInfo : Option Nat := none
deriving DecidableEq, Repr

/-- What the wrapped application does when invoked once: either return a
body or raise an exception of abstract type `ε`. -/
inductive HRes (ε ρ : Type) where
  | ok : ρ → HRes ε ρ
  | exc : ε → HRes ε ρ
deriving DecidableEq, Repr

/-- Observable behaviour of one invocation of a WSGI application: the
`start_response` calls it makes, in order, followed by its outcome. -/
structure AppTrace (ε ρ : Type) where
  srCalls : List SRCall
  result : HRes ε ρ
deriving DecidableEq, Repr

/-- How a middleware call ends: normal value, an exception raised by the
wrapped application, or a `RuntimeError` raised by the middleware itself. -/
inductive MWResult (ε ρ : Type) where
  | ok : ρ → MWResult ε ρ
  | appExc : ε → MWResult ε ρ
  | runtimeErr : String → MWResult ε ρ
deriving DecidableEq, Repr

/-- The loop body of `_wrap_start_response`: `for name, value in
response_headers: if name.lower() == 'content-length': ...; break` —
the value of the first header whose lowercased name is `content-length`. -/
def findContentLength : List (String × String) → Option String
  | [] => none
  | (name, value) :: rest =>
    if pyLower name = "content-length" then some value else findContentLength rest

/-- Effect on the context's `_log_vars` of one call to the wrapper built
by `RequestContextMiddleware._wrap_start_response`: `set_status`, then
`set_response_size` on the first Content-Length header, if any. -/
def wrapUpdate (lv : LogVars) (call : SRCall) : LogVars :=
  let lv1 := RequestContext.set_status call.status lv
  match findContentLength call.headers with
  | some value => RequestContext.set_response_size value lv1
  | none => lv1

/-- Embedding of `start_response_wrapper(status, response_headers, exc_info)`: update
the context via `set_status` / `set_response_size`, then delegate to the
original callback (abstracted as a pure `orig`) with the arguments
unchanged, returning its result. -/
def start_response_wrapper (orig : String → List (String × String) → Option Nat → ρ)
    (lv : LogVars) (status : String) (response_headers : List (String × String))
    (exc_info : Option Nat) : LogVars × ρ :=
  (wrapUpdate lv ⟨status, response_headers, exc_info⟩,
   orig status response_headers exc_info)

/-- The exact message of the `RuntimeError` raised by `LoggingMiddleware`
when `environ` has no `'kudzu.context'` key. -/
def loggingMissingMsg : String :=
  "RequestContext is not present in environ dictionary. LoggingMiddleware requires RequestContextMiddleware."

/-- The exact message of the `RuntimeError` raised by
`RequestContextMiddleware` on a doubly-wrapped request. -/
def contextPresentMsg : String :=
  "RequestContext is already present in environ dictionary. RequestContextMiddleware must be used only once."

/-- Rendering of `LoggingMiddleware.request_format % log_vars`. -/
def LoggingMiddleware.request_format (lv : LogVars) : String :=
  "Request \"" ++ lv.method ++ " " ++ lv.proto ++ " " ++ lv.uri ++ "\" from "
    ++ lv.addr ++ ", user agent \"" ++ lv.uagent ++ "\", referer " ++ lv.referer

/-- Rendering of `LoggingMiddleware.response_format % log_vars`. -/
def LoggingMiddleware.response_format (lv : LogVars) : String :=
  "Response status " ++ lv.status ++ " in " ++ lv.msecs ++ " ms, size "
    ++ lv.rsize ++ " bytes"

/-- Rendering of `LoggingMiddleware.exception_format % log_vars`. -/
def LoggingMiddleware.exception_format (lv : LogVars) : String :=
  "Exception in " ++ lv.msecs ++ " ms."

/-- Output of one `LoggingMiddleware.__call__`: the records it emitted,
its outcome, and the context's `_log_vars` afterwards (`none` when the
middleware failed before a context existed). -/
structure LoggingOut (ε ρ : Type) where
  records : List LogRecord
  result : MWResult ε ρ
  lvAfter : Option LogVars
deriving DecidableEq, Repr

/-- Embedding of `LoggingMiddleware.__call__(environ, start_response)`.

`ctx?` is `environ.get('kudzu.context')` (the context's `_log_vars`);
`srEffect` is what one call to the `start_response` passed in does to
those log vars (the identity for a raw server callback, `wrapUpdate` for
the callback wrapped by `RequestContextMiddleware`); `tr` is the wrapped
application's behaviour; `snap1`/`snap2` are the clock readings for the
two `log_vars` snapshots.  Missing context: raise before logging anything
and before invoking the application.  Otherwise: log the request from a
pre-invocation snapshot, run the application, then log the response
(normal return) or log the exception and re-raise it (error return). -/
def loggingMWCall (ctx? : Option LogVars) (srEffect : LogVars → SRCall → LogVars)
    (tr : AppTrace ε ρ) (snap1 snap2 : Snap) : LoggingOut ε ρ :=
  match ctx? with
  | none => ⟨[], .runtimeErr loggingMissingMsg, none⟩
  | some lv =>
    let requestRec : LogRecord :=
      ⟨.info, LoggingMiddleware.request_format (RequestContext.log_vars lv snap1), false⟩
    let lv1 := tr.srCalls.foldl srEffect lv
    match tr.result with
    | .ok body =>
      ⟨[requestRec,
        ⟨.info, LoggingMiddleware.response_format (RequestContext.log_vars lv1 snap2), false⟩],
       .ok body, some lv1⟩
    | .exc e =>
      ⟨[requestRec,
        ⟨.error, LoggingMiddleware.exception_format (RequestContext.log_vars lv1 snap2), true⟩],
       .appExc e, some lv1⟩

/-- Embedding of `RequestContextMiddleware.__call__` restricted to its effect on the
thread's context stack: push the fresh context, run the wrapped
application body (which may inspect or manipulate the stack), then the
`with` block pops on every exit path; a failing pop raises its own
`RuntimeError`. -/
def withContext (c : Nat) (body : List Nat → HRes ε ρ × List Nat)
    (s : List Nat) : MWResult ε ρ × List Nat :=
  let s1 := RequestContext.push c s
  let (r, s2) := body s1
  match RequestContext.pop c s2 with
  | (some msg, s3) => (.runtimeErr msg, s3)
  | (none, s3) =>
    match r with
    | .ok v => (.ok v, s3)
    | .exc e => (.appExc e, s3)

/-- Output of the composed middleware pipeline
`RequestContextMiddleware(LoggingMiddleware(app))`. -/
structure ComposedOut (ε ρ : Type) where
  records : List LogRecord
  result : MWResult ε ρ
  finalStack : List Nat
deriving DecidableEq, Repr

/-- The composed pipeline `RequestContextMiddleware(LoggingMiddleware(app))`
on one request.  `cid` is the identity of the freshly created context;
`timeStr`/`ctimeStr` feed `_environ_log_vars`; the wrapped application's
`start_response` calls go through the wrapper, so their effect on the
context is `wrapUpdate`.  The contained `LoggingMiddleware` neither reads
nor changes the stack, so the with-block's body is stack-balanced. -/
def composedCall (cid : Nat) (e : Environ) (tr : AppTrace ε ρ)
    (timeStr ctimeStr : String) (snap1 snap2 : Snap) (s : List Nat) :
    ComposedOut ε ρ :=
  match e.kudzu_context with
  | some _ => ⟨[], .runtimeErr contextPresentMsg, s⟩
  | none =>
    let lv0 := RequestContext._environ_log_vars e timeStr ctimeStr
    let s1 := RequestContext.push cid s
    let out := loggingMWCall (some lv0) wrapUpdate tr snap1 snap2
    match RequestContext.pop cid s1 with
    | (some msg, s3) => ⟨out.records, .runtimeErr msg, s3⟩
    | (none, s3) => ⟨out.records, out.result, s3⟩

/-- A minimal `GET / HTTP/1.1` request with no identifying headers, no
query string, no script prefix and no server-provided request URI. -/
def envC6 : Environ where
  path_info := some "/"
  request_method := "GET"
  server_name := "localhost"
  server_protocol := "HTTP/1.1"

/-- Behaviour of a handler that calls `start_response` once with status
`200 OK` and a 13-byte `Content-Length`, then returns a 13-byte body. -/
def trC6 : AppTrace Nat String where
  srCalls := [⟨"200 OK", [("Content-Type", "text/plain"), ("Content-Length", "13")], none⟩]
  result := .ok "Hello world!\n"

/-- A request with script prefix `/foo`, path `/bar` and query `baz=1`,
with no server-provided request URI. -/
def envFooBar : Environ where
  script_name := some "/foo"
  path_info := some "/bar"
  query_string := some "baz=1"
  request_method := "GET"
  server_name := "localhost"
  server_protocol := "HTTP/1.1"

/-! ## First theorems: stack discipline -/

/-- A `_log_vars` state with every `CONTEXT_VARS` key at its initial
sentinel `"-"` (used as a concrete context state in witnesses). -/
def lvDash : LogVars where
  uri := "-"
  method := "-"
  user := "-"
  addr := "-"
  host := "-"
  proto := "-"
  uagent := "-"
  referer := "-"
  status := "-"
  micros := "-"
  msecs := "-"
  time := "-"
  ctime := "-"
  rsize := "-"
  epoch := none

/-- String concatenation is associative (on the list of bytes). -/
theorem str_append_assoc (a b c : String) : a ++ b ++ c = a ++ (b ++ c) := by
  cases a; cases b; cases c
  show String.mk _ = String.mk _
  rw [List.append_assoc]

/-- The empty string is a right identity for concatenation. -/
theorem str_append_empty (a : String) : a ++ "" = a := by
  cases a
  show String.mk _ = String.mk _
  rw [List.append_nil]

/-- An application of `stepOp` in thread `t` does not touch any other thread's stack. -/
theorem stepOp_frame (t u : Nat) (hu : u ≠ t) (g : Nat → List Nat) (op : StackOp) :
    stepOp t g op u = g u := by
  cases op <;> simp [stepOp, hu]

/-- An application of `stepOp` in thread `t` reads and writes only thread `t`'s stack. -/
theorem stepOp_local (t : Nat) (g g' : Nat → List Nat) (hsame : g t = g' t)
    (op : StackOp) : stepOp t g op t = stepOp t g' op t := by
  cases op <;> simp [stepOp, hsame]

/-- The `for`/`break` loop of `_wrap_start_response` returns the value of
the first header whose lowercased name is `content-length`. -/
theorem findContentLength_eq_find (hs : List (String × String)) :
    findContentLength hs =
      (hs.find? (fun h => pyLower h.1 = "content-length")).map Prod.snd := by
  induction hs with
  | nil => rfl
  | cons h rest ih =>
    obtain ⟨name, value⟩ := h
    by_cases hc : pyLower name = "content-length"
    · simp [findContentLength, hc]
    · simp [findContentLength, hc, ih]

/-- C2: popping an empty stack raises a state error; popping with the
wrong context on top raises a state error and leaves the stack unchanged;
`get` returns the top of a non-empty stack and `none` (without raising:
`get` is total) on the empty stack. -/
theorem pop_get_discipline (c x : Nat) (t : List Nat) (hx : x ≠ c) :
    RequestContext.pop c [] = (some "RequestContext stack is empty.", []) ∧
    RequestContext.pop c (x :: t) =
      (some "Wrong RequestContext at top of stack.", x :: t) ∧
    RequestContext.get (x :: t) = some x ∧
    RequestContext.get ([] : List Nat) = none := by
  refine ⟨rfl, ?_, rfl, rfl⟩
  simp [RequestContext.pop, hx]

/-- Witness for `pop_get_discipline` at concrete inputs. -/
theorem pop_get_discipline_witness :
    RequestContext.pop 1 [] = (some "RequestContext stack is empty.", []) ∧
    RequestContext.pop 1 [2, 3] =
      (some "Wrong RequestContext at top of stack.", [2, 3]) ∧
    RequestContext.get [2, 3] = some 2 ∧
    RequestContext.get ([] : List Nat) = none :=
  pop_get_discipline 1 2 [3] (by decide)

/-- C10: `push` is total and does not deduplicate: pushing `c` on any
stack `s` (even one already containing `c`) and popping `c` succeeds and
restores exactly `s`; pushing the same context twice, the first pop leaves
it current and the second pop empties the stack. -/
theorem push_pop_roundtrip (c : Nat) (s : List Nat) :
    RequestContext.pop c (RequestContext.push c s) = (none, s) ∧
    RequestContext.get
      ((RequestContext.pop c
        (RequestContext.push c (RequestContext.push c []))).2) = some c ∧
    RequestContext.pop c
      ((RequestContext.pop c
        (RequestContext.push c (RequestContext.push c []))).2) = (none, []) := by
  refine ⟨?_, ?_, ?_⟩ <;> simp [RequestContext.pop, RequestContext.push, RequestContext.get]

/-- C1: for every stack-balanced wrapped handler, `RequestContextMiddleware`
pushes the fresh context, and the `with` block pops it on every exit path:
the stack seen by the middleware's caller equals the stack from before the
call, a normal return is passed through, and a raised error still
propagates unchanged. -/
theorem requestContextMiddleware_pops_on_all_paths {ε ρ : Type}
    (c : Nat) (s : List Nat) (body : List Nat → HRes ε ρ × List Nat)
    (hbal : ∀ t, (body t).2 = t) :
    (withContext c body s).2 = s ∧
    (∀ v, (body (RequestContext.push c s)).1 = HRes.ok v →
      (withContext c body s).1 = MWResult.ok v) ∧
    (∀ e, (body (RequestContext.push c s)).1 = HRes.exc e →
      (withContext c body s).1 = MWResult.appExc e) := by
  refine ⟨?_, ?_, ?_⟩
  · cases hr : (body (c :: s)).1 <;>
      simp [withContext, hbal, hr, RequestContext.pop, RequestContext.push]
  · intro v hv
    simp only [RequestContext.push] at hv
    simp [withContext, hbal, hv, RequestContext.pop, RequestContext.push]
  · intro e he
    simp only [RequestContext.push] at he
    simp [withContext, hbal, he, RequestContext.pop, RequestContext.push]

/-- Witness for `requestContextMiddleware_pops_on_all_paths`: a handler
that raises error `7` on stack `[5]` leaves the stack `[5]` and the error
propagates. -/
theorem requestContextMiddleware_pops_on_all_paths_witness :
    (withContext 0 (fun t => ((HRes.exc 7 : HRes Nat Nat), t)) [5]).2 = [5] ∧
    (withContext 0 (fun t => ((HRes.exc 7 : HRes Nat Nat), t)) [5]).1 =
      MWResult.appExc 7 :=
  ⟨(requestContextMiddleware_pops_on_all_paths 0 [5]
      (fun t => ((HRes.exc 7 : HRes Nat Nat), t)) (fun _ => rfl)).1,
   (requestContextMiddleware_pops_on_all_paths 0 [5]
      (fun t => ((HRes.exc 7 : HRes Nat Nat), t)) (fun _ => rfl)).2.2 7 rfl⟩

/-- C3: the context stack is execution-unit-local.  Any sequence of
push/pop operations performed by thread `t` leaves every other thread's
stack (and hence that thread's `get`) unchanged, and the stack `get`
observes in thread `t` is determined solely by thread `t`'s own initial
stack and operations. -/
theorem stack_thread_locality (t : Nat) (ops : List StackOp)
    (g g' : Nat → List Nat) (u : Nat) (hu : u ≠ t) (hsame : g t = g' t) :
    runOps t ops g u = g u ∧
    RequestContext.get (runOps t ops g u) = RequestContext.get (g u) ∧
    RequestContext.get (runOps t ops g t) = RequestContext.get (runOps t ops g' t) := by
  have hframe : ∀ h : Nat → List Nat, runOps t ops h u = h u := by
    intro h
    induction ops generalizing h with
    | nil => rfl
    | cons op rest ih =>
      show runOps t rest (stepOp t h op) u = h u
      rw [ih (stepOp t h op), stepOp_frame t u hu]
  refine ⟨hframe g, by rw [hframe g], ?_⟩
  have hdet : ∀ (ops' : List StackOp) (h h' : Nat → List Nat), h t = h' t →
      runOps t ops' h t = runOps t ops' h' t := by
    intro ops'
    induction ops' with
    | nil => intro h h' hs; exact hs
    | cons op rest ih =>
      intro h h' hs
      show runOps t rest (stepOp t h op) t = runOps t rest (stepOp t h' op) t
      exact ih _ _ (stepOp_local t h h' hs op)
  rw [hdet ops g g' hsame]

/-- Witness for `stack_thread_locality`: a push in thread `0` is invisible
from thread `1`, and `get` in thread `0` agrees across two global states
that agree on thread `0`'s stack. -/
theorem stack_thread_locality_witness :
    runOps 0 [StackOp.pushOp 3] (fun _ => []) 1 = [] ∧
    RequestContext.get (runOps 0 [StackOp.pushOp 3] (fun _ => []) 1) =
      RequestContext.get ((fun _ => ([] : List Nat)) 1) ∧
    RequestContext.get (runOps 0 [StackOp.pushOp 3] (fun _ => []) 0) =
      RequestContext.get
        (runOps 0 [StackOp.pushOp 3] (fun u => if u = 0 then [] else [9]) 0) :=
  stack_thread_locality 0 [StackOp.pushOp 3] (fun _ => [])
    (fun u => if u = 0 then [] else [9]) 1 (by decide) rfl

/-- C4: when `environ` carries no `'kudzu.context'` key, `LoggingMiddleware`
raises a `RuntimeError` naming the missing dependency, emits no log
record, and never invokes the wrapped application: its output is the same
constant for every application behaviour. -/
theorem loggingMiddleware_missing_context {ε ρ : Type}
    (srEffect : LogVars → SRCall → LogVars) (tr tr' : AppTrace ε ρ)
    (snap1 snap2 : Snap) :
    loggingMWCall none srEffect tr snap1 snap2 =
      ⟨[], .runtimeErr loggingMissingMsg, none⟩ ∧
    loggingMWCall none srEffect tr snap1 snap2 =
      loggingMWCall none srEffect tr' snap1 snap2 :=
  ⟨rfl, rfl⟩

/-- C7: when the wrapped application raises error `e`, `LoggingMiddleware`
emits the request record and then exactly one error-level record carrying
exception information, rendered from the exception template with the
`msecs` of a failure-time snapshot; the original error re-raises unchanged
and no response record is emitted. -/
theorem loggingMiddleware_exception_path {ε ρ : Type}
    (lv : LogVars) (srEffect : LogVars → SRCall → LogVars)
    (calls : List SRCall) (e : ε) (snap1 snap2 : Snap) :
    loggingMWCall (some lv) srEffect (⟨calls, .exc e⟩ : AppTrace ε ρ) snap1 snap2 =
      ⟨[⟨.info, LoggingMiddleware.request_format (RequestContext.log_vars lv snap1), false⟩,
        ⟨.error, "Exception in " ++ snap2.msecs ++ " ms.", true⟩],
       .appExc e, some (calls.foldl srEffect lv)⟩ := rfl

/-- C8: every call to the wrapped `start_response` first applies
`set_status` to the supplied status line, then applies
`set_response_size` to the value of the first header matching
`content-length` case-insensitively (when one exists, and nothing
otherwise), and finally delegates to the original callback with status,
headers and exc_info unchanged, returning its result. -/
theorem start_response_wrapper_spec {ρ : Type}
    (orig : String → List (String × String) → Option Nat → ρ)
    (lv : LogVars) (status : String) (headers : List (String × String))
    (exc_info : Option Nat) :
    (start_response_wrapper orig lv status headers exc_info).2 =
      orig status headers exc_info ∧
    (∀ nv, headers.find? (fun h => pyLower h.1 = "content-length") = some nv →
      (start_response_wrapper orig lv status headers exc_info).1 =
        RequestContext.set_response_size nv.2
          (RequestContext.set_status status lv)) ∧
    (headers.find? (fun h => pyLower h.1 = "content-length") = none →
      (start_response_wrapper orig lv status headers exc_info).1 =
        RequestContext.set_status status lv) := by
  refine ⟨rfl, ?_, ?_⟩
  · intro nv hnv
    simp [start_response_wrapper, wrapUpdate, findContentLength_eq_find, hnv]
  · intro hnone
    simp [start_response_wrapper, wrapUpdate, findContentLength_eq_find, hnone]

/-- Witness for `start_response_wrapper_spec`: a call carrying a
`Content-Length: 13` header behind a `Content-Type` header updates the
context with status and size. -/
theorem start_response_wrapper_spec_witness :
    (start_response_wrapper (fun _ _ _ => (0 : Nat)) lvDash "200 OK"
        [("Content-Type", "text/plain"), ("Content-Length", "13")] none).1 =
      RequestContext.set_response_size "13"
        (RequestContext.set_status "200 OK" lvDash) :=
  (start_response_wrapper_spec (fun _ _ _ => (0 : Nat)) lvDash "200 OK"
      [("Content-Type", "text/plain"), ("Content-Length", "13")] none).2.1
    ("Content-Length", "13") (by decide)

/-- C5 counterexample: the claim predicts that a status line with leading
whitespace before the code still yields the normalized decimal string, but
on `" 200 OK"` the leading token before the first space is empty, so the
code sets `status` to `"???"`, not `"200"`. -/
theorem set_status_leading_space_cex :
    (RequestContext.set_status " 200 OK" lvDash).status = "???" ∧
    (RequestContext.set_status " 200 OK" lvDash).status ≠ "200" := by
  exact ⟨rfl, by decide⟩

/-- C5 (amended): `set_status` parses the token of the status line before
the first space with Python's `int`: before any call the status is `"-"`;
a status line starting with a space has an empty leading token and yields
`"???"`; a leading tab is stripped by `int` (whitespace normalization
inside the token); leading zeros are normalized (e.g. `"007 OK"` gives
`"7"`); in general a parsable token stores its decimal string, an
unparsable one stores `"???"`. -/
theorem set_status_amended :
    (∀ e ts cs, (RequestContext._environ_log_vars e ts cs).status = "-") ∧
    (∀ s lv, (RequestContext.set_status (" " ++ s) lv).status = "???") ∧
    (∀ s lv, (RequestContext.set_status ("\t" ++ s) lv).status =
      (RequestContext.set_status s lv).status) ∧
    (∀ s lv n, pyInt (pySplitFirst s) = some n →
      (RequestContext.set_status s lv).status = toString n) ∧
    (∀ s lv, pyInt (pySplitFirst s) = none →
      (RequestContext.set_status s lv).status = "???") ∧
    (∀ lv, (RequestContext.set_status "007 OK" lv).status = "7") := by
  refine ⟨fun e ts cs => rfl, ?_, ?_, ?_, ?_, ?_⟩
  · intro s lv
    have hsplit : pySplitFirst (" " ++ s) = "" := by
      have hlist : (" " ++ s).toList = ' ' :: s.toList := rfl
      simp [pySplitFirst, hlist]
    have hint : pyInt "" = none := rfl
    simp [RequestContext.set_status, hsplit, hint]
  · intro s lv
    have hlist : ("\t" ++ s).toList = '\t' :: s.toList := rfl
    have hkey : pyInt (pySplitFirst ("\t" ++ s)) = pyInt (pySplitFirst s) := by
      have hsplit : pySplitFirst ("\t" ++ s) =
          String.mk ('\t' :: (pySplitFirst s).toList) := by
        simp [pySplitFirst, hlist]
      rw [hsplit]
      show pyInt (String.mk ('\t' :: (pySplitFirst s).toList)) = _
      unfold pyInt
      have hstrip : stripPy ('\t' :: (pySplitFirst s).toList) =
          stripPy (pySplitFirst s).toList := by
        simp [stripPy, isPyWhitespace]
      rw [show (String.mk ('\t' :: (pySplitFirst s).toList)).toList =
        '\t' :: (pySplitFirst s).toList from rfl, hstrip]
    cases hcase : pyInt (pySplitFirst s) with
    | none => simp [RequestContext.set_status, hkey, hcase]
    | some n => simp [RequestContext.set_status, hkey, hcase]
  · intro s lv n hn
    simp [RequestContext.set_status, hn]
  · intro s lv hn
    simp [RequestContext.set_status, hn]
  · intro lv
    have h7 : pyInt (pySplitFirst "007 OK") = some 7 := rfl
    simp [RequestContext.set_status, h7]
    rfl

/-- Witness for `set_status_amended`: the success branch at the concrete
status line `"200 OK"`. -/
theorem set_status_amended_witness :
    (RequestContext.set_status "200 OK" lvDash).status = toString (200 : Int) :=
  set_status_amended.2.2.2.1 "200 OK" lvDash 200 rfl

/-- C9: when no server-provided `REQUEST_URI` exists, the `uri` field is
the script prefix concatenated with the path, with `"?" ++ query` appended
when a query string is present and non-empty and nothing appended when it
is absent or empty; a server-provided `REQUEST_URI` is used verbatim. -/
theorem get_request_uri_spec (e : Environ) :
    (∀ u, e.request_uri = some u → _get_request_uri e = u) ∧
    (e.request_uri = none →
      ((e.query_string = none ∨ e.query_string = some "" →
        _get_request_uri e = e.script_name.getD "" ++ e.path_info.getD "") ∧
       (∀ q, e.query_string = some q → q ≠ "" →
        _get_request_uri e =
          e.script_name.getD "" ++ e.path_info.getD "" ++ ("?" ++ q)))) := by
  refine ⟨?_, ?_⟩
  · intro u hu
    simp [_get_request_uri, hu]
  · intro hnone
    constructor
    · rintro (hq | hq) <;>
        simp [_get_request_uri, hnone, hq, pyTruthyOptStr, pyJoin, str_append_empty]
    · intro q hq hq'
      simp [_get_request_uri, hnone, hq, pyTruthyOptStr, hq', pyJoin,
        str_append_empty, str_append_assoc]

/-- Witness for `get_request_uri_spec`: script prefix `/foo`, path `/bar`
and query `baz=1` reconstruct to `/foo/bar?baz=1`. -/
theorem get_request_uri_spec_witness :
    _get_request_uri envFooBar = "/foo/bar?baz=1" := by
  have h := ((get_request_uri_spec envFooBar).2 rfl).2 "baz=1" rfl (by decide)
  simpa using h

/-- C6: the composed pipeline
`RequestContextMiddleware(LoggingMiddleware(app))` on the minimal
`GET / HTTP/1.1` request, with a handler that reports status `200 OK` with
`Content-Length: 13` and returns normally, emits exactly two info records
in order — the request line from a pre-invocation snapshot and the
response line with status `200` and size `13` from a post-invocation
snapshot — returns the handler's body, and restores the stack. -/
theorem composed_success_two_records (timeStr ctimeStr : String)
    (snap1 snap2 : Snap) (s : List Nat) :
    composedCall 0 envC6 trC6 timeStr ctimeStr snap1 snap2 s =
      ⟨[⟨.info, "Request \"GET HTTP/1.1 /\" from -, user agent \"-\", referer -", false⟩,
        ⟨.info, "Response status 200 in " ++ snap2.msecs ++ " ms, size " ++ "13" ++ " bytes",
          false⟩],
       .ok "Hello world!\n", s⟩ := rfl
